import Mathlib

/-!
Verification development for `serve.py`, a minimal static-file development
server.  The script subclasses Python's `SimpleHTTPRequestHandler`, overriding
two methods:

  * `Handler.do_GET`  — sleeps one second when the `--slow` flag was given at
    startup, then delegates to the inherited `do_GET`;
  * `Handler.send_error` — passes every status other than 404 to the inherited
    `send_error`, and on 404 rewrites `self.path` to `/index.html` and invokes
    the inherited `do_GET` again.

We embed the request-handling code as a function producing a trace of
observable events.  The inherited `do_GET` reports failures through
`self.send_error`, which dynamically dispatches back to the override, so the
embedding passes the dispatched error handler explicitly and uses a fuel
parameter to capture the (in general unbounded) recursion: a result flag
`false` means the handler did not finish within the given recursion depth,
mirroring Python's eventual `RecursionError`.
-/

namespace Serve

/-- Outcome of resolving a request path against the served directory, the
abstraction of what the inherited static-file machinery finds: an existing
file with its content, no file at all (the inherited code then calls
`self.send_error(404, "File not found")`), or some other resolution failure
reported with a non-404 status (for example 403 on a permission error). -/
inductive FileStatus where
  | found (content : String)
  | missing
  | failure (code : Nat)
deriving DecidableEq, Repr

/-- The served directory: what resolution yields for each request path. -/
def Fs : Type := String → FileStatus

/-- Observable events of one handled request: the single read of the
startup-time configuration flag, the `time.sleep(1)` call, the
`self.path = '/index.html'` rewrite performed by the overridden
`send_error`, and the status line and body bytes written to the client. -/
inductive Event where
  | configWrite (value : Bool)
  | configRead (value : Bool)
  | sleep (seconds : Nat)
  | rewriteToIndex
  | sendStatus (code : Nat)
  | sendBody (body : String)
deriving DecidableEq, Repr

/-- The inherited `BaseHTTPRequestHandler.send_error`: writes the error
status line and the default HTML error page, and completes. -/
def errorPage (code : Nat) (message explain : Option String) : String :=
  "<html><body>Error " ++ toString code ++ ": " ++ message.getD "" ++ " "
    ++ explain.getD "" ++ "</body></html>"

def SimpleHTTPRequestHandler.send_error
    (code : Nat) (message explain : Option String) : List Event × Bool :=
  ([Event.sendStatus code, Event.sendBody (errorPage code message explain)], true)

/-- The inherited `SimpleHTTPRequestHandler.do_GET`, resolving `path` against
the directory.  Failures are reported through `self_send_error`, the
dynamically dispatched `self.send_error` of the actual handler instance. -/
def SimpleHTTPRequestHandler.do_GET (fs : Fs)
    (self_send_error : Nat → Option String → Option String → List Event × Bool)
    (path : String) : List Event × Bool :=
  match fs path with
  | FileStatus.found c => ([Event.sendStatus 200, Event.sendBody c], true)
  | FileStatus.missing => self_send_error 404 (some "File not found") none
  | FileStatus.failure e => self_send_error e none none

/-- The inherited `SimpleHTTPRequestHandler.do_HEAD`: same resolution as
`do_GET` but only the headers are written on success; failures again go
through the dispatched `self.send_error`. -/
def SimpleHTTPRequestHandler.do_HEAD (fs : Fs)
    (self_send_error : Nat → Option String → Option String → List Event × Bool)
    (path : String) : List Event × Bool :=
  match fs path with
  | FileStatus.found _ => ([Event.sendStatus 200], true)
  | FileStatus.missing => self_send_error 404 (some "File not found") none
  | FileStatus.failure e => self_send_error e none none

/-- The override `Handler.send_error`: any status other than 404 goes to the
inherited `send_error` unchanged; on 404 the handler rewrites `self.path` to
`/index.html` and re-runs the inherited `do_GET`, whose own error reporting
dispatches back to this very method — hence the recursion, bounded here by
`fuel` (result flag `false` = recursion depth exhausted, no response sent). -/
def Handler.send_error (fs : Fs) :
    Nat → Nat → Option String → Option String → List Event × Bool
  | fuel, code, message, explain =>
    if code ≠ 404 then
      SimpleHTTPRequestHandler.send_error code message explain
    else
      match fuel with
      | 0 => ([], false)
      | Nat.succ f =>
        let r := SimpleHTTPRequestHandler.do_GET fs
          (fun c m e => Handler.send_error fs f c m e) "/index.html"
        (Event.rewriteToIndex :: r.1, r.2)

/-- The inherited `do_GET` as it runs on a `Handler` instance: resolution with
errors dispatched to the overridden `send_error`. -/
def Handler.super_do_GET (fs : Fs) (fuel : Nat) (path : String) :
    List Event × Bool :=
  SimpleHTTPRequestHandler.do_GET fs
    (fun c m e => Handler.send_error fs fuel c m e) path

/-- The inherited `do_HEAD` as it runs on a `Handler` instance. -/
def Handler.super_do_HEAD (fs : Fs) (fuel : Nat) (path : String) :
    List Event × Bool :=
  SimpleHTTPRequestHandler.do_HEAD fs
    (fun c m e => Handler.send_error fs fuel c m e) path

/-- The override `Handler.do_GET`: reads `args.slow`, sleeps one second when
it is set, then delegates to the inherited `do_GET`. -/
def Handler.do_GET (slow : Bool) (fs : Fs) (fuel : Nat) (path : String) :
    List Event × Bool :=
  let r := Handler.super_do_GET fs fuel path
  ((Event.configRead slow :: if slow then [Event.sleep 1] else []) ++ r.1, r.2)

/-- An incoming request: method and path. -/
structure Request where
  method : String
  path : String
deriving DecidableEq, Repr

/-- Dispatch of one request by the handler class: GET runs the overridden
`do_GET`; HEAD runs the inherited `do_HEAD` (only `do_GET` and `send_error`
are overridden); any other method is rejected by the inherited machinery with
`self.send_error(501, ...)`, which again dispatches to the override. -/
def Handler.handle (slow : Bool) (fs : Fs) (fuel : Nat) (r : Request) :
    List Event × Bool :=
  if r.method = "GET" then Handler.do_GET slow fs fuel r.path
  else if r.method = "HEAD" then Handler.super_do_HEAD fs fuel r.path
  else Handler.send_error fs fuel 501 (some "Unsupported method") none

/-- The default handling a plain `SimpleHTTPRequestHandler` would perform
(no override anywhere): errors go to the inherited `send_error` directly.
Used to compare the program against unmodified default behavior. -/
def default_do_GET (fs : Fs) (path : String) : List Event × Bool :=
  SimpleHTTPRequestHandler.do_GET fs SimpleHTTPRequestHandler.send_error path

def default_do_HEAD (fs : Fs) (path : String) : List Event × Bool :=
  SimpleHTTPRequestHandler.do_HEAD fs SimpleHTTPRequestHandler.send_error path

/-- Whole-process trace over a list of requests: the single module-level
assignment `args = parser.parse_args()` writes the configuration once, then
every request is handled reading it. -/
def serverTrace (slow : Bool) (fs : Fs) (fuel : Nat) (reqs : List Request) :
    List Event :=
  Event.configWrite slow :: (reqs.map fun r => (Handler.handle slow fs fuel r).1).flatten

/-- Startup behavior of the script after argument parsing: one `print`, then
`ThreadingHTTPServer(('', 3000), Handler)` binds host `""` (all interfaces)
on port 3000, then `serve_forever()`. -/
inductive StartEvent where
  | printLine (line : String)
  | bindSocket (host : String) (port : Nat)
  | serveForever
deriving DecidableEq, Repr

def startupTrace : List StartEvent :=
  [StartEvent.printLine "Serving on http://localhost:3000",
   StartEvent.bindSocket "" 3000,
   StartEvent.serveForever]

/-- Status line of a response trace: the first status code written. -/
def statusOf : List Event → Option Nat
  | [] => none
  | Event.sendStatus c :: _ => some c
  | _ :: evs => statusOf evs

/-- Body bytes of a response trace: concatenation of everything written as
body content. -/
def bodyOf : List Event → String
  | [] => ""
  | Event.sendBody s :: evs => s ++ bodyOf evs
  | _ :: evs => bodyOf evs

/-- Number of `time.sleep` calls in a trace. -/
def sleepCount (evs : List Event) : Nat :=
  evs.countP fun e => match e with
    | Event.sleep _ => true
    | _ => false

/-- Number of `self.path = '/index.html'` rewrites in a trace. -/
def rewriteCount (evs : List Event) : Nat :=
  evs.countP fun e => match e with
    | Event.rewriteToIndex => true
    | _ => false

/-- Number of status lines with a given code in a trace. -/
def statusCount (code : Nat) (evs : List Event) : Nat :=
  evs.countP fun e => match e with
    | Event.sendStatus c => c == code
    | _ => false

/-- Number of configuration writes in a trace. -/
def configWriteCount (evs : List Event) : Nat :=
  evs.countP fun e => match e with
    | Event.configWrite _ => true
    | _ => false

/-- The values read from the configuration flag, in order. -/
def configReads (evs : List Event) : List Bool :=
  evs.filterMap fun e => match e with
    | Event.configRead b => some b
    | _ => none

/-- A directory containing only `/index.html`, used as concrete test data. -/
def fsIndexOnly : Fs := fun p =>
  if p = "/index.html" then FileStatus.found "<html>A</html>" else FileStatus.missing

/-- An empty directory, used as concrete test data. -/
def fsEmptyDir : Fs := fun _ => FileStatus.missing

/-- Events the error-handling and resolution machinery can emit: the path
rewrite, a status line that is never 404, or body bytes.  In particular such
traces never sleep and never touch the configuration flag. -/
def tameEvent (ev : Event) : Prop :=
  ev = Event.rewriteToIndex ∨ (∃ c, c ≠ 404 ∧ ev = Event.sendStatus c)
    ∨ ∃ s, ev = Event.sendBody s

lemma counts_of_tame {evs : List Event} (h : ∀ ev ∈ evs, tameEvent ev) :
    sleepCount evs = 0 ∧ statusCount 404 evs = 0 ∧ configWriteCount evs = 0
      ∧ configReads evs = [] := by
  refine ⟨?_, ?_, ?_, ?_⟩
  · rw [sleepCount, List.countP_eq_zero]
    intro a ha
    rcases h a ha with h1 | ⟨c, _, h1⟩ | ⟨s, h1⟩ <;> subst h1 <;> simp
  · rw [statusCount, List.countP_eq_zero]
    intro a ha
    rcases h a ha with h1 | ⟨c, hc, h1⟩ | ⟨s, h1⟩
    · subst h1; simp
    · subst h1; simp [hc]
    · subst h1; simp
  · rw [configWriteCount, List.countP_eq_zero]
    intro a ha
    rcases h a ha with h1 | ⟨c, _, h1⟩ | ⟨s, h1⟩ <;> subst h1 <;> simp
  · rw [configReads, List.filterMap_eq_nil_iff]
    intro a ha
    rcases h a ha with h1 | ⟨c, _, h1⟩ | ⟨s, h1⟩ <;> subst h1 <;> simp

/-- Every event emitted by the overridden `send_error` is tame, whatever the
status code, message and recursion depth. -/
lemma send_error_tame (fs : Fs) : ∀ fuel code message explain,
    ∀ ev ∈ (Handler.send_error fs fuel code message explain).1, tameEvent ev := by
  intro fuel
  induction fuel with
  | zero =>
    intro code message explain ev hev
    by_cases h : code = 404
    · subst h
      simp [Handler.send_error] at hev
    · simp [Handler.send_error, h, SimpleHTTPRequestHandler.send_error] at hev
      rcases hev with h1 | h1
      · exact Or.inr (Or.inl ⟨code, h, h1⟩)
      · exact Or.inr (Or.inr ⟨_, h1⟩)
  | succ f ih =>
    intro code message explain ev hev
    by_cases h : code = 404
    · subst h
      cases hfs : fs "/index.html" with
      | found c =>
        simp [Handler.send_error, SimpleHTTPRequestHandler.do_GET, hfs] at hev
        rcases hev with h1 | h1 | h1
        · exact Or.inl h1
        · exact Or.inr (Or.inl ⟨200, by decide, h1⟩)
        · exact Or.inr (Or.inr ⟨_, h1⟩)
      | missing =>
        simp [Handler.send_error, SimpleHTTPRequestHandler.do_GET, hfs] at hev
        rcases hev with h1 | h1
        · exact Or.inl h1
        · exact ih 404 (some "File not found") none ev h1
      | failure e2 =>
        simp [Handler.send_error, SimpleHTTPRequestHandler.do_GET, hfs] at hev
        rcases hev with h1 | h1
        · exact Or.inl h1
        · exact ih e2 none none ev h1
    · simp [Handler.send_error, h, SimpleHTTPRequestHandler.send_error] at hev
      rcases hev with h1 | h1
      · exact Or.inr (Or.inl ⟨code, h, h1⟩)
      · exact Or.inr (Or.inr ⟨_, h1⟩)

/-- Every event emitted by the inherited `do_GET` running on a `Handler` is
tame. -/
lemma super_do_GET_tame (fs : Fs) (fuel : Nat) (path : String) :
    ∀ ev ∈ (Handler.super_do_GET fs fuel path).1, tameEvent ev := by
  intro ev hev
  unfold Handler.super_do_GET SimpleHTTPRequestHandler.do_GET at hev
  cases hfs : fs path with
  | found c =>
    rw [hfs] at hev
    simp at hev
    rcases hev with h1 | h1
    · exact Or.inr (Or.inl ⟨200, by decide, h1⟩)
    · exact Or.inr (Or.inr ⟨_, h1⟩)
  | missing =>
    rw [hfs] at hev
    exact send_error_tame fs fuel 404 (some "File not found") none ev hev
  | failure e =>
    rw [hfs] at hev
    exact send_error_tame fs fuel e none none ev hev

/-- Every event emitted by the inherited `do_HEAD` running on a `Handler` is
tame. -/
lemma super_do_HEAD_tame (fs : Fs) (fuel : Nat) (path : String) :
    ∀ ev ∈ (Handler.super_do_HEAD fs fuel path).1, tameEvent ev := by
  intro ev hev
  unfold Handler.super_do_HEAD SimpleHTTPRequestHandler.do_HEAD at hev
  cases hfs : fs path with
  | found c =>
    rw [hfs] at hev
    simp at hev
    subst hev
    exact Or.inr (Or.inl ⟨200, by decide, rfl⟩)
  | missing =>
    rw [hfs] at hev
    exact send_error_tame fs fuel 404 (some "File not found") none ev hev
  | failure e =>
    rw [hfs] at hev
    exact send_error_tame fs fuel e none none ev hev

/-- When `/index.html` itself is missing, the overridden `send_error` on a
404 never completes: each recursion level performs one more path rewrite and
re-resolves, so the whole available depth is consumed without a single byte
of status or body being written (Python raises `RecursionError`). -/
lemma send_error_404_no_index (fs : Fs) (hI : fs "/index.html" = FileStatus.missing) :
    ∀ fuel message explain,
      Handler.send_error fs fuel 404 message explain =
        (List.replicate fuel Event.rewriteToIndex, false) := by
  intro fuel
  induction fuel with
  | zero =>
    intro message explain
    simp [Handler.send_error]
  | succ f ih =>
    intro message explain
    simp [Handler.send_error, SimpleHTTPRequestHandler.do_GET, hI, ih,
      List.replicate_succ]

lemma statusOf_replicate_rewrite (n : Nat) :
    statusOf (List.replicate n Event.rewriteToIndex) = none := by
  induction n with
  | zero => simp [statusOf]
  | succ m ih => simpa [List.replicate_succ, statusOf] using ih

lemma rewriteCount_replicate (n : Nat) :
    rewriteCount (List.replicate n Event.rewriteToIndex) = n := by
  induction n with
  | zero => simp [rewriteCount]
  | succ m ih =>
    rw [rewriteCount] at ih ⊢
    simp only [List.replicate_succ, List.countP_cons, ih]
    simp

/-- C1: the claim states that when `/index.html` does not exist either, a GET
of a non-existent path yields an HTTP 404.  The code violates this: the
overridden `send_error` rewrites the path and re-enters the inherited
`do_GET`, whose renewed 404 dispatches back to the override, so however deep
the recursion is allowed to go, the request never completes and no status
line — 404 or otherwise — is ever written (Python dies with a
`RecursionError` instead of answering). -/
theorem C1_missing_index_never_sends_404 (slow : Bool) (fs : Fs) (P : String)
    (hP : fs P = FileStatus.missing)
    (hI : fs "/index.html" = FileStatus.missing) (fuel : Nat) :
    statusOf (Handler.do_GET slow fs fuel P).1 = none ∧
    (Handler.do_GET slow fs fuel P).2 = false := by
  have hse := send_error_404_no_index fs hI fuel (some "File not found") none
  constructor
  · cases slow <;>
      simp [Handler.do_GET, Handler.super_do_GET, SimpleHTTPRequestHandler.do_GET,
        hP, hse, statusOf, statusOf_replicate_rewrite]
  · simp [Handler.do_GET, Handler.super_do_GET, SimpleHTTPRequestHandler.do_GET,
      hP, hse]

/-- Witness for C1 on a concrete empty directory. -/
theorem C1_missing_index_never_sends_404_witness :
    fsEmptyDir "/missing" = FileStatus.missing ∧
    fsEmptyDir "/index.html" = FileStatus.missing ∧
    (statusOf (Handler.do_GET false fsEmptyDir 7 "/missing").1 = none ∧
      (Handler.do_GET false fsEmptyDir 7 "/missing").2 = false) :=
  ⟨rfl, rfl, C1_missing_index_never_sends_404 false fsEmptyDir "/missing" rfl rfl 7⟩

/-- C2: the claim states that the rewrite to `/index.html` is performed at
most once per request, so handling stops after at most two resolution
attempts.  The code violates this: on an empty directory a single GET
performs as many rewrites as the recursion depth allows — the count equals
the full fuel instead of being bounded by one. -/
theorem C2_rewrite_count_unbounded (fuel : Nat) :
    rewriteCount (Handler.do_GET false fsEmptyDir fuel "/missing").1 = fuel := by
  have hse := send_error_404_no_index fsEmptyDir rfl fuel (some "File not found") none
  have htrace : (Handler.do_GET false fsEmptyDir fuel "/missing").1 =
      Event.configRead false :: List.replicate fuel Event.rewriteToIndex := by
    simp [Handler.do_GET, Handler.super_do_GET, SimpleHTTPRequestHandler.do_GET,
      fsEmptyDir, hse]
  have hrep := rewriteCount_replicate fuel
  rw [htrace]
  rw [rewriteCount] at hrep ⊢
  simp only [List.countP_cons, hrep]
  simp

/-- C3: when the requested path is absent but `/index.html` exists, the
response of the fallback pass is byte-identical (status line, body bytes,
and completion) to the response of a direct GET of `/index.html`. -/
theorem C3_fallback_matches_direct_index_get (slow : Bool) (fs : Fs)
    (P c : String) (f1 f2 : Nat) (hP : fs P = FileStatus.missing)
    (hI : fs "/index.html" = FileStatus.found c) :
    statusOf (Handler.do_GET slow fs (f1 + 1) P).1
      = statusOf (Handler.do_GET slow fs f2 "/index.html").1 ∧
    bodyOf (Handler.do_GET slow fs (f1 + 1) P).1
      = bodyOf (Handler.do_GET slow fs f2 "/index.html").1 ∧
    (Handler.do_GET slow fs (f1 + 1) P).2 = true ∧
    (Handler.do_GET slow fs f2 "/index.html").2 = true := by
  have h1 : Handler.do_GET slow fs (f1 + 1) P =
      ((Event.configRead slow :: if slow then [Event.sleep 1] else []) ++
        [Event.rewriteToIndex, Event.sendStatus 200, Event.sendBody c], true) := by
    simp [Handler.do_GET, Handler.super_do_GET, SimpleHTTPRequestHandler.do_GET,
      Handler.send_error, hP, hI]
  have h2 : Handler.do_GET slow fs f2 "/index.html" =
      ((Event.configRead slow :: if slow then [Event.sleep 1] else []) ++
        [Event.sendStatus 200, Event.sendBody c], true) := by
    simp [Handler.do_GET, Handler.super_do_GET, SimpleHTTPRequestHandler.do_GET, hI]
  rw [h1, h2]
  cases slow <;> simp [statusOf, bodyOf]

/-- Witness for C3 on a directory holding only `/index.html`. -/
theorem C3_fallback_matches_direct_index_get_witness :
    fsIndexOnly "/missing" = FileStatus.missing ∧
    fsIndexOnly "/index.html" = FileStatus.found "<html>A</html>" ∧
    (statusOf (Handler.do_GET false fsIndexOnly (0 + 1) "/missing").1
        = statusOf (Handler.do_GET false fsIndexOnly 5 "/index.html").1 ∧
      bodyOf (Handler.do_GET false fsIndexOnly (0 + 1) "/missing").1
        = bodyOf (Handler.do_GET false fsIndexOnly 5 "/index.html").1 ∧
      (Handler.do_GET false fsIndexOnly (0 + 1) "/missing").2 = true ∧
      (Handler.do_GET false fsIndexOnly 5 "/index.html").2 = true) :=
  ⟨by decide, by decide,
    C3_fallback_matches_direct_index_get false fsIndexOnly "/missing"
      "<html>A</html>" 0 5 (by decide) (by decide)⟩

/-- C4 is falsified at a concrete input: `send_error` is overridden for the
whole handler class, so the 404-to-`/index.html` rewrite also fires for a
HEAD request of a missing path — the handling differs from the unmodified
default, which would send a plain 404 error response. -/
theorem C4_counterexample :
    Handler.super_do_HEAD fsIndexOnly 1 "/missing"
      ≠ default_do_HEAD fsIndexOnly "/missing" := by decide

/-- C4 amended: non-GET requests indeed never incur the slow-mode delay (the
inherited `do_HEAD` neither reads the flag nor sleeps), but the
404-to-`/index.html` rewrite does apply to them: a HEAD of a missing path is
answered with status 200 and the body bytes of `/index.html` instead of the
default 404 response. -/
theorem C4_non_get_no_delay_but_rewrite_applies (fs : Fs) (fuel : Nat)
    (path c : String) (hP : fs path = FileStatus.missing)
    (hI : fs "/index.html" = FileStatus.found c) :
    sleepCount (Handler.super_do_HEAD fs fuel path).1 = 0 ∧
    configReads (Handler.super_do_HEAD fs fuel path).1 = [] ∧
    statusOf (Handler.super_do_HEAD fs (fuel + 1) path).1 = some 200 ∧
    bodyOf (Handler.super_do_HEAD fs (fuel + 1) path).1 = c := by
  obtain ⟨hs, -, -, hr⟩ := counts_of_tame (super_do_HEAD_tame fs fuel path)
  have ht : (Handler.super_do_HEAD fs (fuel + 1) path).1 =
      [Event.rewriteToIndex, Event.sendStatus 200, Event.sendBody c] := by
    simp [Handler.super_do_HEAD, SimpleHTTPRequestHandler.do_HEAD, hP,
      Handler.send_error, SimpleHTTPRequestHandler.do_GET, hI]
  refine ⟨hs, hr, ?_, ?_⟩ <;> rw [ht] <;> simp [statusOf, bodyOf]

/-- Witness for the amended C4 on a directory holding only `/index.html`. -/
theorem C4_non_get_no_delay_but_rewrite_applies_witness :
    fsIndexOnly "/missing" = FileStatus.missing ∧
    fsIndexOnly "/index.html" = FileStatus.found "<html>A</html>" ∧
    (sleepCount (Handler.super_do_HEAD fsIndexOnly 2 "/missing").1 = 0 ∧
      configReads (Handler.super_do_HEAD fsIndexOnly 2 "/missing").1 = [] ∧
      statusOf (Handler.super_do_HEAD fsIndexOnly (2 + 1) "/missing").1 = some 200 ∧
      bodyOf (Handler.super_do_HEAD fsIndexOnly (2 + 1) "/missing").1
        = "<html>A</html>") :=
  ⟨by decide, by decide,
    C4_non_get_no_delay_but_rewrite_applies fsIndexOnly 2 "/missing"
      "<html>A</html>" (by decide) (by decide)⟩

/-- C5: any error status other than 404 is handed to the inherited
`send_error` unchanged, producing exactly the default error response —
the SPA fallback never fires for it. -/
theorem C5_non_404_error_passthrough (fs : Fs) (fuel code : Nat)
    (message explain : Option String) (h : code ≠ 404) :
    Handler.send_error fs fuel code message explain =
      SimpleHTTPRequestHandler.send_error code message explain := by
  cases fuel <;> simp [Handler.send_error, h]

/-- Witness for C5 at status 403. -/
theorem C5_non_404_error_passthrough_witness :
    (403 : Nat) ≠ 404 ∧
      Handler.send_error fsEmptyDir 0 403 (some "Forbidden") none =
        SimpleHTTPRequestHandler.send_error 403 (some "Forbidden") none :=
  ⟨by decide,
    C5_non_404_error_passthrough fsEmptyDir 0 403 (some "Forbidden") none
      (by decide)⟩

/-- C6: a single one-second sleep occurs in GET handling exactly when the
slow flag is set — right after the flag read and before any resolution
event — and the underlying resolution itself never sleeps, so with the flag
unset no artificial delay exists anywhere. -/
theorem C6_sleep_iff_slow_flag (slow : Bool) (fs : Fs) (fuel : Nat)
    (path : String) :
    sleepCount (Handler.do_GET slow fs fuel path).1 = (if slow then 1 else 0) ∧
    (Handler.do_GET true fs fuel path).1.take 2
      = [Event.configRead true, Event.sleep 1] ∧
    sleepCount (Handler.super_do_GET fs fuel path).1 = 0 := by
  obtain ⟨hs, -, -, -⟩ := counts_of_tame (super_do_GET_tame fs fuel path)
  refine ⟨?_, ?_, hs⟩
  · simp only [sleepCount] at hs ⊢
    cases slow <;>
      simp [Handler.do_GET, List.countP_cons, List.countP_append, hs]
  · simp [Handler.do_GET]

lemma handle_configWriteCount (slow : Bool) (fs : Fs) (fuel : Nat)
    (r : Request) : configWriteCount (Handler.handle slow fs fuel r).1 = 0 := by
  obtain ⟨-, -, hwG, -⟩ := counts_of_tame (super_do_GET_tame fs fuel r.path)
  obtain ⟨-, -, hwH, -⟩ := counts_of_tame (super_do_HEAD_tame fs fuel r.path)
  obtain ⟨-, -, hwE, -⟩ := counts_of_tame
    (send_error_tame fs fuel 501 (some "Unsupported method") none)
  simp only [configWriteCount] at hwG hwH hwE ⊢
  unfold Handler.handle
  by_cases h1 : r.method = "GET"
  · cases slow <;>
      simp [h1, Handler.do_GET, List.countP_cons, List.countP_append, hwG]
  · by_cases h2 : r.method = "HEAD"
    · simp [h1, h2, hwH]
    · simp [h1, h2, hwE]

lemma handle_configReads (slow : Bool) (fs : Fs) (fuel : Nat) (r : Request) :
    ((configReads (Handler.handle slow fs fuel r).1).all
      fun b => b == slow) = true := by
  obtain ⟨-, -, -, hrG⟩ := counts_of_tame (super_do_GET_tame fs fuel r.path)
  obtain ⟨-, -, -, hrH⟩ := counts_of_tame (super_do_HEAD_tame fs fuel r.path)
  obtain ⟨-, -, -, hrE⟩ := counts_of_tame
    (send_error_tame fs fuel 501 (some "Unsupported method") none)
  simp only [configReads] at hrG hrH hrE ⊢
  unfold Handler.handle
  by_cases h1 : r.method = "GET"
  · cases slow <;>
      simp [h1, Handler.do_GET, List.filterMap_append, hrG]
  · by_cases h2 : r.method = "HEAD"
    · simp [h1, h2, hrH]
    · simp [h1, h2, hrE]

lemma flatten_configWriteCount (slow : Bool) (fs : Fs) (fuel : Nat) :
    ∀ reqs : List Request,
      configWriteCount
        ((reqs.map fun r => (Handler.handle slow fs fuel r).1).flatten) = 0 := by
  intro reqs
  induction reqs with
  | nil => simp [configWriteCount]
  | cons r rs ih =>
    have h := handle_configWriteCount slow fs fuel r
    simp only [configWriteCount] at h ih ⊢
    simp [List.countP_append, h, ih]

lemma flatten_configReads (slow : Bool) (fs : Fs) (fuel : Nat) :
    ∀ reqs : List Request,
      ((configReads
        ((reqs.map fun r => (Handler.handle slow fs fuel r).1).flatten)).all
          fun b => b == slow) = true := by
  intro reqs
  induction reqs with
  | nil => simp [configReads]
  | cons r rs ih =>
    have h := handle_configReads slow fs fuel r
    simp only [configReads] at h ih ⊢
    rw [List.map_cons, List.flatten_cons, List.filterMap_append, List.all_append,
      h, ih]
    rfl

/-- C7: over a whole process trace the configuration flag is written exactly
once — as the very first action, the module-level argument parse — and every
subsequent access during request handling is a read returning that startup
value. -/
theorem C7_config_written_once_then_read_only (slow : Bool) (fs : Fs)
    (fuel : Nat) (reqs : List Request) :
    configWriteCount (serverTrace slow fs fuel reqs) = 1 ∧
    (serverTrace slow fs fuel reqs).head? = some (Event.configWrite slow) ∧
    ((configReads (serverTrace slow fs fuel reqs)).all
      fun b => b == slow) = true := by
  refine ⟨?_, by simp [serverTrace], ?_⟩
  · have h := flatten_configWriteCount slow fs fuel reqs
    simp only [configWriteCount] at h ⊢
    simp [serverTrace, List.countP_cons, h]
  · have h := flatten_configReads slow fs fuel reqs
    simp only [configReads, serverTrace] at h ⊢
    exact h

/-- C8: after argument parsing the script prints exactly one line announcing
the serving address, binds the listening socket on all interfaces (host `""`)
at TCP port 3000, and only then enters the unbounded serve loop, which is the
final startup action. -/
theorem C8_startup_one_print_bind_3000_then_serve :
    (startupTrace.countP fun e => match e with
      | StartEvent.printLine _ => true
      | _ => false) = 1 ∧
    StartEvent.printLine "Serving on http://localhost:3000"
      ∈ startupTrace.dropLast ∧
    StartEvent.bindSocket "" 3000 ∈ startupTrace.dropLast ∧
    startupTrace.getLast? = some StartEvent.serveForever := by decide

lemma handle_status404 (slow : Bool) (fs : Fs) (fuel : Nat) (r : Request) :
    statusCount 404 (Handler.handle slow fs fuel r).1 = 0 := by
  obtain ⟨-, hG, -, -⟩ := counts_of_tame (super_do_GET_tame fs fuel r.path)
  obtain ⟨-, hH, -, -⟩ := counts_of_tame (super_do_HEAD_tame fs fuel r.path)
  obtain ⟨-, hE, -, -⟩ := counts_of_tame
    (send_error_tame fs fuel 501 (some "Unsupported method") none)
  simp only [statusCount] at hG hH hE ⊢
  unfold Handler.handle
  by_cases h1 : r.method = "GET"
  · cases slow <;>
      simp [h1, Handler.do_GET, List.countP_cons, List.countP_append, hG]
  · by_cases h2 : r.method = "HEAD"
    · simp [h1, h2, hH]
    · simp [h1, h2, hE]

/-- C9: no request handling of any method ever writes a 404 status line, and
every 404 handed to the overridden `send_error` is replaced by the path
rewrite followed by a re-run of the inherited GET resolution on
`/index.html`. -/
theorem C9_404_always_intercepted (slow : Bool) (fs : Fs) (fuel : Nat)
    (r : Request) (message explain : Option String) :
    statusCount 404 (Handler.handle slow fs fuel r).1 = 0 ∧
    Handler.send_error fs (fuel + 1) 404 message explain =
      (Event.rewriteToIndex :: (Handler.super_do_GET fs fuel "/index.html").1,
        (Handler.super_do_GET fs fuel "/index.html").2) := by
  exact ⟨handle_status404 slow fs fuel r, rfl⟩

/-- C10: a GET sleeps at most once even when the SPA fallback runs, because
the fallback in the overridden `send_error` re-enters the inherited `do_GET`
directly, bypassing the overridden `do_GET` that contains the delay — the
whole error path never sleeps at all. -/
theorem C10_sleep_at_most_once_per_get (slow : Bool) (fs : Fs) (fuel : Nat)
    (path : String) :
    sleepCount (Handler.do_GET slow fs fuel path).1 ≤ 1 ∧
    ∀ code message explain,
      sleepCount (Handler.send_error fs fuel code message explain).1 = 0 := by
  obtain ⟨hs, -, -, -⟩ := counts_of_tame (super_do_GET_tame fs fuel path)
  constructor
  · simp only [sleepCount] at hs ⊢
    cases slow <;>
      simp [Handler.do_GET, List.countP_cons, List.countP_append, hs]
  · intro code message explain
    exact (counts_of_tame (send_error_tame fs fuel code message explain)).1

end Serve
